import Mathlib

/-!
Shallow embedding of `src/script.py`: a single-file interactive
command-line program.  The program keeps a `Session` (prompt string,
version string, running flag), reads lines in a loop, echoes them,
and dispatches on the line: a quoted re-invocation of the program
("python script.py ..."), a builtin command (exit/quit/version/help),
or free text.  Quoted invocations are tokenized with `shlex.split`
and re-parsed with an `argparse` parser recognizing `-h` (`--help`),
`-v` (`--version`) and `-p VALUE` (`--prompt VALUE`).

Pure Python string operations (`strip`, `lower`, `startswith`) are
modelled over `List Char`; `shlex.split` and the `argparse` parser of
`create_parser` are modelled as executable functions returning
`Except`.  Terminal output is modelled as a list of tagged output
events (typewriter print, plain print, parser text written to
stderr).  Reads from stdin are modelled as a list of input events
(a line, an interrupt signal, end of input).
-/

deriving instance DecidableEq for Except

/-- Whitespace as recognized by Python `str.strip()` (ASCII part). -/
def pySpace (c : Char) : Bool :=
  c == ' ' || c == '\t' || c == '\n' || c == '\r' || c == '\x0b' || c == '\x0c'

/-- Python `str.strip()`: drop leading and trailing whitespace. -/
def pyStrip (s : String) : String :=
  (((s.toList.dropWhile pySpace).reverse.dropWhile pySpace).reverse).asString

/-- Python `str.lower()` (ASCII case mapping, which covers every
string the program compares against). -/
def pyLower (s : String) : String :=
  (s.toList.map Char.toLower).asString

/-- Boolean test that the first list is a prefix of the second. -/
def listPre : List Char → List Char → Bool
  | [], _ => true
  | _ :: _, [] => false
  | a :: as, b :: bs => a == b && listPre as bs

/-- Python `s.startswith(pre)`. -/
def pyStartsWith (s pre : String) : Bool := listPre pre.toList s.toList

/-! ### `shlex.split`

Model of `shlex.split(s)` (POSIX mode, `whitespace_split`, no
comments): whitespace separates tokens; single quotes group literally;
double quotes group with backslash escaping `"` and `\`; a backslash
outside quotes escapes the next character.  An unterminated quote
raises `ValueError("No closing quotation")` and a trailing backslash
raises `ValueError("No escaped character")`; both are modelled as
`.error` carrying `str(e)` of the exception. -/

/-- Token separators of `shlex` (`shlex.whitespace`). -/
def shWhitespace (c : Char) : Bool :=
  c == ' ' || c == '\t' || c == '\r' || c == '\n'

/-- Lexer state of the `shlex.split` model: outside any quote, inside
single quotes, inside double quotes, after a backslash outside
quotes, after a backslash inside double quotes. -/
inductive ShMode where
  | normal | inSingle | inDouble | escPlain | escDouble

/-- One pass of the `shlex` state machine.  `cur = none` means no
token is in progress; `cur = some t` is the token built so far (an
empty quoted string yields `some []`, hence an empty token). -/
def shlexGo : ShMode → Option (List Char) → List Char → Except String (List String)
  | .normal, none, [] => .ok []
  | .normal, some t, [] => .ok [t.asString]
  | .inSingle, _, [] => .error "No closing quotation"
  | .inDouble, _, [] => .error "No closing quotation"
  | .escPlain, _, [] => .error "No escaped character"
  | .escDouble, _, [] => .error "No escaped character"
  | .normal, cur, c :: cs =>
    if shWhitespace c then
      match cur with
      | none => shlexGo .normal none cs
      | some t => (shlexGo .normal none cs).map (t.asString :: ·)
    else if c == '\'' then shlexGo .inSingle (some (cur.getD [])) cs
    else if c == '"' then shlexGo .inDouble (some (cur.getD [])) cs
    else if c == '\\' then shlexGo .escPlain (some (cur.getD [])) cs
    else shlexGo .normal (some (cur.getD [] ++ [c])) cs
  | .inSingle, cur, c :: cs =>
    if c == '\'' then shlexGo .normal cur cs
    else shlexGo .inSingle (some (cur.getD [] ++ [c])) cs
  | .inDouble, cur, c :: cs =>
    if c == '"' then shlexGo .normal cur cs
    else if c == '\\' then shlexGo .escDouble cur cs
    else shlexGo .inDouble (some (cur.getD [] ++ [c])) cs
  | .escPlain, cur, c :: cs => shlexGo .normal (some (cur.getD [] ++ [c])) cs
  | .escDouble, cur, c :: cs =>
    if c == '"' || c == '\\' then shlexGo .inDouble (some (cur.getD [] ++ [c])) cs
    else shlexGo .inDouble (some (cur.getD [] ++ ['\\', c])) cs

/-- `shlex.split(s)` as used on line 75 of the source. -/
def shlexSplit (s : String) : Except String (List String) :=
  shlexGo .normal none s.toList

/-! ### The `argparse` parser built by `create_parser`

`create_parser` registers `-h` and `--help` (`store_true`), `-v` and
`--version` (`store_true`) and `-p`, `--prompt` (store, one value) with
`add_help=False` and no positional arguments.  `parse_args` either
returns a namespace (modelled by `Args`) or reports an error on
stderr and raises `SystemExit(2)` (modelled by `.error` carrying the
error message; the usage line argparse prints before the message is
not tracked).  The model follows argparse's `_parse_optional` /
`_get_option_tuples` classification: exact option strings,
`name=value` forms, unique long-option abbreviations, short options
with an attached value and clustered short flags, negative-number-like
and space-containing tokens treated as positionals, and the
"ambiguous option" error when an abbreviation matches several long
options (reachable here only through a `--=value` token, whose name
part `--` abbreviates all three long options).  Classification of
every token up to the first `--` marker happens before any
consumption, so an ambiguous token errors even when it sits after
another failure point.  A bare `--` token ends option processing:
it and everything after it land among the extras (with no positional
arguments registered, CPython rejects `['--']` with
`unrecognized arguments: --`), and an optional awaiting its value
never consumes across a `--` (argparse strips the `-` markers from
the nargs pattern of an optional action). -/

/-- Namespace produced by `parse_args`: defaults are
`help=False`, `version=False`, `prompt=None`. -/
structure Args where
  help : Bool := false
  version : Bool := false
  prompt : Option String := none

deriving instance DecidableEq for Args

/-- The three registered actions. -/
inductive ActionKind where
  | helpA | versionA | promptA

deriving instance DecidableEq for ActionKind

/-- Display label of an action, as argparse uses in error messages. -/
def optLabel : ActionKind → String
  | .helpA => "-h/--help"
  | .versionA => "-v/--version"
  | .promptA => "-p/--prompt"

/-- The registered long option strings. -/
def longOpts : List String := ["--help", "--version", "--prompt"]

/-- Look up an exact registered option string. -/
def actionOf : String → Option ActionKind
  | "-h" => some .helpA
  | "--help" => some .helpA
  | "-v" => some .versionA
  | "--version" => some .versionA
  | "-p" => some .promptA
  | "--prompt" => some .promptA
  | _ => none

/-- Single-character lookup for clustered short flags. -/
def charAction : Char → Option ActionKind
  | 'h' => some .helpA
  | 'v' => some .versionA
  | 'p' => some .promptA
  | _ => none

/-- Tail of argparse's negative-number test: matches `\d*\.\d+`. -/
def digitsDot : List Char → Bool
  | [] => false
  | '.' :: ds => !ds.isEmpty && ds.all (·.isDigit)
  | c :: cs => c.isDigit && digitsDot cs

/-- argparse `_negative_number_matcher`: `^-\d+$|^-\d*\.\d+$`.  With
no digit-like option strings registered, such tokens are
positionals. -/
def isNegNum (s : String) : Bool :=
  match s.toList with
  | '-' :: rest => (!rest.isEmpty && rest.all (·.isDigit)) || digitsDot rest
  | _ => false

/-- Split a token at its first `=`, as argparse does for
`option=value` forms. -/
def splitEqAux : List Char → Option (List Char × List Char)
  | [] => none
  | '=' :: cs => some ([], cs)
  | c :: cs => (splitEqAux cs).map (fun p => (c :: p.1, p.2))

/-- String version of `splitEqAux`. -/
def splitEq (s : String) : Option (String × String) :=
  (splitEqAux s.toList).map (fun p => (p.1.asString, p.2.asString))

/-- Classification of one token by `_parse_optional`: a positional,
an optional that matches no registered option (an "extra"), a
matched long/short option with an optional attached value, or an
abbreviation matching several long options (an immediate
"ambiguous option" error, raised during classification). -/
inductive OptTok where
  | positionalTok
  | unknownTok
  | longOpt (a : ActionKind) (explicit : Option String)
  | shortOpt (a : ActionKind) (explicit : Option String)
  | ambiguousTok (msg : String)

deriving instance DecidableEq for OptTok

/-- Fallback tests of `_parse_optional` once option matching failed:
negative numbers and tokens containing a space are positionals,
anything else dash-led is an unrecognized optional. -/
def resolveOptTail (tok : String) : OptTok :=
  if isNegNum tok then .positionalTok
  else if tok.toList.contains ' ' then .positionalTok
  else .unknownTok

/-- `_get_option_tuples`: unique long-option abbreviation (several
matches are the "ambiguous option" error), or a short option with
the remaining characters attached. -/
def resolveOptRest (tok : String) : OptTok :=
  if pyStartsWith tok "--" then
    let nameExp :=
      match splitEq tok with
      | some (n, v) => (n, some v)
      | none => (tok, none)
    match longOpts.filter (fun o => pyStartsWith o nameExp.1) with
    | [o] =>
      match actionOf o with
      | some a => .longOpt a nameExp.2
      | none => resolveOptTail tok
    | [] => resolveOptTail tok
    | more =>
      .ambiguousTok ("ambiguous option: " ++ tok ++ " could match "
        ++ String.intercalate ", " more)
  else
    match tok.toList with
    | '-' :: c :: rest =>
      if rest.isEmpty then resolveOptTail tok
      else
        match charAction c with
        | some a => .shortOpt a (some rest.asString)
        | none => resolveOptTail tok
    | _ => resolveOptTail tok

/-- `_parse_optional`: classify one token. -/
def resolveOpt (tok : String) : OptTok :=
  if ¬ pyStartsWith tok "-" then .positionalTok
  else if tok = "-h" then .shortOpt .helpA none
  else if tok = "-v" then .shortOpt .versionA none
  else if tok = "-p" then .shortOpt .promptA none
  else if tok = "--help" then .longOpt .helpA none
  else if tok = "--version" then .longOpt .versionA none
  else if tok = "--prompt" then .longOpt .promptA none
  else if tok = "-" then .positionalTok
  else
    match splitEq tok with
    | some (name, val) =>
      match actionOf name with
      | some a =>
        if pyStartsWith tok "--" then .longOpt a (some val)
        else .shortOpt a (some val)
      | none => resolveOptRest tok
    | none => resolveOptRest tok

/-- Process the characters attached to a matched short flag as
further clustered short flags (`-hv`, `-hp VALUE`, `-pVALUE`...).
`prev` is the action that just fired, used in the error message when
an unknown character is met.  Returns the updated namespace and
whether a `-p` at the end of the cluster is still awaiting the next
token as its value. -/
def chainShort : ActionKind → List Char → Args → Except String (Args × Bool)
  | _, [], a => .ok (a, false)
  | prev, c :: cs, a =>
    match charAction c with
    | none =>
      .error ("argument " ++ optLabel prev ++ ": ignored explicit argument '"
        ++ (c :: cs).asString ++ "'")
    | some .helpA => chainShort .helpA cs { a with help := true }
    | some .versionA => chainShort .versionA cs { a with version := true }
    | some .promptA =>
      match cs with
      | [] => .ok (a, true)
      | _ => .ok ({ a with prompt := some cs.asString }, false)

/-- Final step of `parse_args`: leftover positionals and unmatched
optionals make the "unrecognized arguments" error. -/
def finishParse (a : Args) (extras : List String) : Except String Args :=
  if extras.isEmpty then .ok a
  else .error ("unrecognized arguments: " ++ String.intercalate " " extras)

/-- Error raised when the prompt flag finds no value token. -/
def expectedOneArg : String := "argument -p/--prompt: expected one argument"

mutual

/-- Left-to-right consumption loop of `parse_args` over the token
list, accumulating the namespace and the extras. -/
def consumeTokens : List String → Args → List String → Except String Args
  | [], a, extras => finishParse a extras
  | tok :: rest, a, extras =>
    if tok = "--" then finishParse a (extras ++ tok :: rest)
    else
      match resolveOpt tok with
      | .positionalTok => consumeTokens rest a (extras ++ [tok])
      | .unknownTok => consumeTokens rest a (extras ++ [tok])
      | .ambiguousTok m => .error m
      | .longOpt act ex =>
        match act, ex with
        | .helpA, none => consumeTokens rest { a with help := true } extras
        | .versionA, none => consumeTokens rest { a with version := true } extras
        | .promptA, none => consumeValue rest a extras
        | .promptA, some v => consumeTokens rest { a with prompt := some v } extras
        | .helpA, some v =>
          .error ("argument -h/--help: ignored explicit argument '" ++ v ++ "'")
        | .versionA, some v =>
          .error ("argument -v/--version: ignored explicit argument '" ++ v ++ "'")
      | .shortOpt act ex =>
        match act, ex with
        | .helpA, none => consumeTokens rest { a with help := true } extras
        | .versionA, none => consumeTokens rest { a with version := true } extras
        | .promptA, none => consumeValue rest a extras
        | .promptA, some v => consumeTokens rest { a with prompt := some v } extras
        | .helpA, some v =>
          if v = "" then
            .error "argument -h/--help: ignored explicit argument ''"
          else
            match chainShort .helpA v.toList { a with help := true } with
            | .error e => .error e
            | .ok (a2, false) => consumeTokens rest a2 extras
            | .ok (a2, true) => consumeValue rest a2 extras
        | .versionA, some v =>
          if v = "" then
            .error "argument -v/--version: ignored explicit argument ''"
          else
            match chainShort .versionA v.toList { a with version := true } with
            | .error e => .error e
            | .ok (a2, false) => consumeTokens rest a2 extras
            | .ok (a2, true) => consumeValue rest a2 extras

/-- The prompt flag looks for its value in the immediately following
token, which must be classified as a positional.  For an optional
action argparse strips the `-` markers from the nargs pattern, so a
`--` marker (like any option-classified token, or the end of the
tokens) gives "expected one argument". -/
def consumeValue : List String → Args → List String → Except String Args
  | [], _, _ => .error expectedOneArg
  | v :: rest, a, extras =>
    if v = "--" then .error expectedOneArg
    else
      match resolveOpt v with
      | .positionalTok => consumeTokens rest { a with prompt := some v } extras
      | .ambiguousTok m => .error m
      | _ => .error expectedOneArg

end

/-- argparse's upfront classification loop: `_parse_optional` runs on
every token up to the first `--` marker before any consumption, so an
"ambiguous option" error there precedes every consumption error. -/
def classifyErr : List String → Option String
  | [] => none
  | tok :: rest =>
    if tok = "--" then none
    else
      match resolveOpt tok with
      | .ambiguousTok m => some m
      | _ => classifyErr rest

/-- `parser.parse_args(tokens)` for the parser of `create_parser`. -/
def pyParse (tokens : List String) : Except String Args :=
  match classifyErr tokens with
  | some m => .error m
  | none => consumeTokens tokens ⟨false, false, none⟩ []

/-! ### The session and its terminal output -/

/-- The `InteractiveCLI` state: `prompt` (default `"> "`), `version`
(default `"1.0.0"`), `running`. -/
structure Session where
  prompt : String
  version : String
  running : Bool

deriving instance DecidableEq for Session

/-- One piece of terminal output.  `tw` is a `typewriter_effect`
print, `direct` a plain `print` to stdout (the echo and the startup
usage text), `err` is the text argparse writes to stderr when
`parse_args` fails (tracked by its error message; `SystemExit`
raised afterwards is caught on line 86 of the source). -/
inductive Out where
  | tw (s : String)
  | direct (s : String)
  | err (s : String)

deriving instance DecidableEq for Out

/-- Whether an output event is a typewriter print. -/
def isTw : Out → Bool
  | .tw _ => true
  | _ => false

/-- Whether an output event is a plain stdout print. -/
def isDirect : Out → Bool
  | .direct _ => true
  | _ => false

/-- The fixed help text of `show_help`. -/
def help_text : String :=
  "\nAvailable commands:\n  help                  - Show this help message\n  version               - Show program version\n  exit/quit             - Exit the program\n  python script.py [options] - Execute as command line args\nOptions:\n  -h, --help           - Show help\n  -v, --version        - Show version\n  -p PROMPT, --prompt PROMPT - Change prompt temporarily\n"

/-- `echo_input`: the styled, instant echo of the user's input. -/
def echo_input (user_input : String) : Out :=
  Out.direct ("\x1b[3m\x1b[90mUser: " ++ user_input ++ "\x1b[0m")

/-- `process_input`: the free-text response string. -/
def process_input (user_input : String) : String :=
  "System: You said '" ++ user_input ++ "'"

/-- The `if args.help / elif args.version / elif args.prompt` chain
of `handle_cli_args` (lines 77-84).  `elif args.prompt:` is Python
truthiness: it fires only for a present, non-empty prompt value. -/
def applyArgs (sess : Session) (a : Args) : Session × List Out :=
  if a.help = true then (sess, [Out.tw help_text])
  else if a.version = true then
    (sess, [Out.tw ("Interactive CLI Version " ++ sess.version)])
  else
    match a.prompt with
    | some v =>
      if v ≠ "" then
        ({ sess with prompt := v },
         [Out.tw ("Prompt changed from '" ++ sess.prompt ++ "' to '" ++ v ++ "'")])
      else (sess, [])
    | none => (sess, [])

/-- What `handle_cli_args` does with the outcome of `parse_args`: on
failure, argparse has written its message to stderr and the raised
`SystemExit` is swallowed (`except SystemExit: pass`), so nothing
further is printed; on success the flag chain runs. -/
def applyParseResult (sess : Session) (r : Except String Args) : Session × List Out :=
  match r with
  | .error msg => (sess, [Out.err msg])
  | .ok a => applyArgs sess a

/-- `handle_cli_args` (lines 71-90): tokenize with `shlex.split`,
drop the first two tokens, parse the rest.  A `ValueError` from
`shlex` lands in `except Exception` and is typewriter-printed as
`Error parsing arguments: ...`. -/
def handle_cli_args (sess : Session) (argsStr : String) : Session × List Out :=
  match shlexSplit argsStr with
  | .error e => (sess, [Out.tw ("Error parsing arguments: " ++ e)])
  | .ok toks => applyParseResult sess (pyParse (toks.drop 2))

/-! ### The session loop -/

/-- One stdin interaction: a line of input, a `KeyboardInterrupt`
raised during the blocking read, or `EOFError` (stream closed). -/
inductive Event where
  | line (s : String)
  | interrupt
  | eof

/-- The classify-and-dispatch block of `start` (lines 107-121),
applied to the stripped, non-empty input. -/
def classify_line (sess : Session) (t : String) : Session × List Out :=
  if pyStartsWith t "python script.py" then handle_cli_args sess t
  else if pyLower t = "exit" ∨ pyLower t = "quit" then
    ({ sess with running := false }, [Out.tw "Goodbye!"])
  else if pyLower t = "version" then
    (sess, [Out.tw ("Interactive CLI Version " ++ sess.version)])
  else if pyLower t = "help" then (sess, [Out.tw help_text])
  else (sess, [Out.tw (process_input t)])

/-- One iteration body of the `while self.running` loop of `start`
(lines 99-127): strip the line, skip if empty, echo it, dispatch; a
`KeyboardInterrupt` prints the hint, an `EOFError` prints the
farewell and stops the loop. -/
def stepEvent (sess : Session) (e : Event) : Session × List Out :=
  match e with
  | .interrupt => (sess, [Out.tw "\nUse 'exit' or 'quit' to end the session."])
  | .eof => ({ sess with running := false }, [Out.tw "\nGoodbye!"])
  | .line raw =>
    let t := pyStrip raw
    if t = "" then (sess, [])
    else
      let r := classify_line sess t
      (r.1, echo_input t :: r.2)

/-- The `while self.running` loop over a given stdin event sequence.
The loop re-checks `running` before each read; once it is false the
remaining events are never read.  (When the event list runs out the
model simply stops: the real program would block on `input`.) -/
def runLoop : Session → List Event → Session × List Out
  | sess, [] => (sess, [])
  | sess, e :: es =>
    if sess.running then
      let p := stepEvent sess e
      let q := runLoop p.1 es
      (q.1, p.2 ++ q.2)
    else (sess, [])

/-- `start` (lines 92-127): set `running = True`, print the banner,
run the loop. -/
def start (sess : Session) (events : List Event) : Session × List Out :=
  let s1 := { sess with running := true }
  let p := runLoop s1 events
  (p.1,
   Out.tw ("Interactive CLI (Version " ++ sess.version ++ ")")
     :: Out.tw "Type 'help' for available commands." :: p.2)

/-- Process exit status. -/
inductive ExitStatus where
  | code (n : Nat)

deriving instance DecidableEq for ExitStatus

/-- The six `print` lines of the startup help branch (lines 142-147). -/
def usage_lines : List String :=
  ["Usage: python script.py [options]",
   "Options:",
   "  -h, --help     show this help message and exit",
   "  -v, --version  show program's version number and exit",
   "  -p PROMPT, --prompt PROMPT",
   "                set the command prompt (default: '> ')"]

/-- `main` (lines 134-158): parse the real process arguments (a
failure is fatal with argparse's exit code 2); `args.help` prints the
usage lines with plain `print` and exits 0; `args.version` calls
`cli.show_version()` — a typewriter print — and exits 0;
`if args.prompt:` (truthiness) sets the initial prompt; then
`cli.start()` runs and the process ends with status 0. -/
def mainRun (argv : List String) (events : List Event) : List Out × ExitStatus :=
  match pyParse argv with
  | .error e => ([Out.err e], .code 2)
  | .ok a =>
    if a.help = true then (usage_lines.map Out.direct, .code 0)
    else if a.version = true then
      ([Out.tw "Interactive CLI Version 1.0.0"], .code 0)
    else
      let initPrompt :=
        match a.prompt with
        | some v => if v ≠ "" then v else "> "
        | none => "> "
      let p := start { prompt := initPrompt, version := "1.0.0", running := false } events
      (p.2, .code 0)

/-- A concrete mid-session state: default prompt and version, loop
running.  Used by the concrete instantiations below. -/
def s0 : Session := { prompt := "> ", version := "1.0.0", running := true }

/-! ### Claim theorems -/

/-- C7: an input line that is empty after stripping produces no echo
and no response, leaves the Session unchanged, and the loop simply
proceeds to the next iteration. -/
theorem c7_blank_input_noop (sess : Session) (raw : String) (rest : List Event)
    (h : pyStrip raw = "") (hr : sess.running = true) :
    stepEvent sess (Event.line raw) = (sess, []) ∧
    runLoop sess (Event.line raw :: rest) = runLoop sess rest := by
  have hstep : stepEvent sess (Event.line raw) = (sess, []) := by
    simp [stepEvent, h]
  refine ⟨hstep, ?_⟩
  simp [runLoop, hr, hstep]

/-- Closed instance of `c7_blank_input_noop` at a whitespace line. -/
theorem c7_witness :
    stepEvent s0 (Event.line " \t ") = (s0, []) ∧
    runLoop s0 (Event.line " \t " :: []) = runLoop s0 [] :=
  c7_blank_input_noop s0 " \t " [] (by decide) rfl

/-- C5: a non-empty trimmed line that is not a quoted invocation and
not a builtin is echoed and answered with exactly
`System: You said '<input>'` for the trimmed input. -/
theorem c5_free_text_response (sess : Session) (raw : String)
    (h1 : pyStrip raw ≠ "")
    (h2 : pyStartsWith (pyStrip raw) "python script.py" = false)
    (h3 : pyLower (pyStrip raw) ∉ (["exit", "quit", "version", "help"] : List String)) :
    stepEvent sess (Event.line raw) =
      (sess, [echo_input (pyStrip raw),
              Out.tw ("System: You said '" ++ pyStrip raw ++ "'")]) := by
  simp only [List.mem_cons, List.not_mem_nil, or_false, not_or] at h3
  obtain ⟨e1, e2, e3, e4⟩ := h3
  simp [stepEvent, h1, classify_line, h2, e1, e2, e3, e4, process_input]

/-- Closed instance of `c5_free_text_response`. -/
theorem c5_witness :
    stepEvent s0 (Event.line "hello world") =
      (s0, [echo_input (pyStrip "hello world"),
            Out.tw ("System: You said '" ++ pyStrip "hello world" ++ "'")]) :=
  c5_free_text_response s0 "hello world" (by decide) (by decide) (by decide)

/-- C6: whenever the quoted-invocation line tokenizes, the handler's
behavior is entirely determined by feeding the token list minus its
first two tokens to the flag parser. -/
theorem c6_drop_two_tokens (sess : Session) (argsStr : String) (toks : List String)
    (h : shlexSplit argsStr = .ok toks) :
    handle_cli_args sess argsStr = applyParseResult sess (pyParse (toks.drop 2)) := by
  simp [handle_cli_args, h]

/-- Closed instance of `c6_drop_two_tokens`. -/
theorem c6_witness :
    handle_cli_args s0 "python script.py -h" =
      applyParseResult s0 (pyParse ((["python", "script.py", "-h"]).drop 2)) :=
  c6_drop_two_tokens s0 "python script.py -h" ["python", "script.py", "-h"] (by decide)

/-- C9: a `KeyboardInterrupt` during the blocking read prints the
hint, leaves the state (in particular `running`) untouched, and the
loop goes on to process the rest of the input. -/
theorem c9_interrupt_continues (sess : Session) (rest : List Event)
    (hr : sess.running = true) :
    stepEvent sess Event.interrupt =
      (sess, [Out.tw "\nUse 'exit' or 'quit' to end the session."]) ∧
    (runLoop sess (Event.interrupt :: rest)).1 = (runLoop sess rest).1 ∧
    (runLoop sess (Event.interrupt :: rest)).2 =
      Out.tw "\nUse 'exit' or 'quit' to end the session." :: (runLoop sess rest).2 := by
  refine ⟨rfl, ?_, ?_⟩ <;> simp [runLoop, hr, stepEvent]

/-- Closed instance of `c9_interrupt_continues`. -/
theorem c9_witness :
    stepEvent s0 Event.interrupt =
      (s0, [Out.tw "\nUse 'exit' or 'quit' to end the session."]) ∧
    (runLoop s0 (Event.interrupt :: [Event.line "hi"])).1 =
      (runLoop s0 [Event.line "hi"]).1 ∧
    (runLoop s0 (Event.interrupt :: [Event.line "hi"])).2 =
      Out.tw "\nUse 'exit' or 'quit' to end the session."
        :: (runLoop s0 [Event.line "hi"]).2 :=
  c9_interrupt_continues s0 [Event.line "hi"] rfl

/-- C10: a quoted invocation whose tokens parse successfully with no
help, no version and no prompt value prints nothing and changes
nothing. -/
theorem c10_no_flag_noop (sess : Session) (argsStr : String) (toks : List String)
    (h1 : shlexSplit argsStr = .ok toks)
    (h2 : pyParse (toks.drop 2) = .ok { help := false, version := false, prompt := none }) :
    handle_cli_args sess argsStr = (sess, []) := by
  simp [handle_cli_args, h1, applyParseResult, h2, applyArgs]

/-- Closed instance of `c10_no_flag_noop` at the bare invocation. -/
theorem c10_witness : handle_cli_args s0 "python script.py" = (s0, []) :=
  c10_no_flag_noop s0 "python script.py" ["python", "script.py"] (by decide) (by decide)

/-- C1 (as stated) fails: on the malformed-flag line
`python script.py --bogus` the failure is caught and the state is
unchanged, but no typewriter-effect error message is printed — the
`SystemExit` raised by argparse is swallowed by `except SystemExit:
pass` (line 86), so the only error text is what argparse itself wrote
to stderr.  The iteration's output holds no typewriter print at all
beyond none: its only entries are the instant echo and the stderr
text. -/
theorem c1_counterexample :
    stepEvent s0 (Event.line "python script.py --bogus") =
      (s0, [echo_input "python script.py --bogus",
            Out.err "unrecognized arguments: --bogus"]) ∧
    (stepEvent s0 (Event.line "python script.py --bogus")).2.filter isTw = [] := by
  constructor <;> decide

/-- C1 (amended): for every in-session quoted-invocation line whose
flags are malformed, the parse failure is caught, the Session state
(prompt, running, version) is unchanged, the error text reaches the
user via the parser's own stderr report rather than the typewriter
effect, and the loop continues with the next input; the failure never
terminates the session. -/
theorem c1_parse_failure_caught (sess : Session) (raw : String) (toks : List String)
    (e : String) (rest : List Event) (hr : sess.running = true)
    (h1 : pyStartsWith (pyStrip raw) "python script.py" = true)
    (h2 : shlexSplit (pyStrip raw) = .ok toks)
    (h3 : pyParse (toks.drop 2) = .error e) :
    stepEvent sess (Event.line raw) = (sess, [echo_input (pyStrip raw), Out.err e]) ∧
    (runLoop sess (Event.line raw :: rest)).1 = (runLoop sess rest).1 ∧
    (runLoop sess (Event.line raw :: rest)).2 =
      echo_input (pyStrip raw) :: Out.err e :: (runLoop sess rest).2 := by
  have ht : pyStrip raw ≠ "" := by
    intro hz
    rw [hz] at h1
    exact absurd h1 (by decide)
  have hstep : stepEvent sess (Event.line raw) =
      (sess, [echo_input (pyStrip raw), Out.err e]) := by
    simp [stepEvent, ht, classify_line, h1, handle_cli_args, h2, applyParseResult, h3]
  refine ⟨hstep, ?_, ?_⟩ <;> simp [runLoop, hr, hstep]

/-- Closed instance of `c1_parse_failure_caught`. -/
theorem c1_witness :
    stepEvent s0 (Event.line "python script.py --oops") =
      (s0, [echo_input (pyStrip "python script.py --oops"),
            Out.err "unrecognized arguments: --oops"]) ∧
    (runLoop s0 (Event.line "python script.py --oops" :: [Event.line "hi"])).1 =
      (runLoop s0 [Event.line "hi"]).1 ∧
    (runLoop s0 (Event.line "python script.py --oops" :: [Event.line "hi"])).2 =
      echo_input (pyStrip "python script.py --oops")
        :: Out.err "unrecognized arguments: --oops"
        :: (runLoop s0 [Event.line "hi"]).2 :=
  c1_parse_failure_caught s0 "python script.py --oops"
    ["python", "script.py", "--oops"] "unrecognized arguments: --oops"
    [Event.line "hi"] rfl (by decide) (by decide) (by decide)

/-- C2 (as stated) fails: with the version flag in the real process
arguments, the program does exit with code 0 before the loop, but the
version text is printed through `cli.show_version()`, i.e. through the
typewriter effect, not directly: the startup output holds no direct
print and does hold a typewriter print. -/
theorem c2_counterexample :
    mainRun ["-v"] [] = ([Out.tw "Interactive CLI Version 1.0.0"], ExitStatus.code 0) ∧
    (mainRun ["-v"] []).1.filter isDirect = [] ∧
    (mainRun ["-v"] []).1.filter isTw ≠ [] := by
  refine ⟨?_, ?_, ?_⟩ <;> decide

/-- C2 (amended): at startup, the help flag prints the usage lines
directly (no typewriter effect) and the process exits with code 0;
otherwise the version flag prints the version text via the typewriter
effect and the process exits with code 0.  In both cases the
interactive loop is never entered (the output is independent of the
input events). -/
theorem c2_startup_flags_exit (argv : List String) (a : Args) (events : List Event)
    (h : pyParse argv = .ok a) :
    (a.help = true → mainRun argv events = (usage_lines.map Out.direct, ExitStatus.code 0)) ∧
    (a.help = false → a.version = true →
      mainRun argv events = ([Out.tw "Interactive CLI Version 1.0.0"], ExitStatus.code 0)) := by
  constructor
  · intro hh
    simp [mainRun, h, hh]
  · intro hh hv
    simp [mainRun, h, hh, hv]

/-- Closed instance of `c2_startup_flags_exit`. -/
theorem c2_witness :
    mainRun ["-h"] [] = (usage_lines.map Out.direct, ExitStatus.code 0) :=
  (c2_startup_flags_exit ["-h"] { help := true, version := false, prompt := none } []
    (by decide)).1 rfl

/-- C4: on a successful parse at most one action fires, with the
precedence help over version over prompt of the if/elif chain; in
particular the tokens `-h -v` parse to both flags set and only the
help text is printed.  (`prompt is set` is the chain's own test,
Python truthiness: a present, non-empty value.) -/
theorem c4_dispatch_precedence (sess : Session) (a : Args) :
    (applyArgs sess a).2.length ≤ 1 ∧
    (a.help = true → applyArgs sess a = (sess, [Out.tw help_text])) ∧
    (a.help = false → a.version = true →
      applyArgs sess a = (sess, [Out.tw ("Interactive CLI Version " ++ sess.version)])) ∧
    (a.help = false → a.version = false → ∀ v, a.prompt = some v → v ≠ "" →
      applyArgs sess a =
        ({ sess with prompt := v },
         [Out.tw ("Prompt changed from '" ++ sess.prompt ++ "' to '" ++ v ++ "'")])) ∧
    pyParse ["-h", "-v"] = .ok { help := true, version := true, prompt := none } ∧
    applyArgs sess { help := true, version := true, prompt := none } =
      (sess, [Out.tw help_text]) := by
  refine ⟨?_, ?_, ?_, ?_, by decide, by simp [applyArgs]⟩
  · unfold applyArgs
    split
    · simp
    · split
      · simp
      · split
        · split <;> simp
        · simp
  · intro hh
    simp [applyArgs, hh]
  · intro hh hv
    simp [applyArgs, hh, hv]
  · intro hh hv v hp hv0
    simp [applyArgs, hh, hv, hp, hv0]

/-- Closed instance of `c4_dispatch_precedence`: with both help and
version set, only the help text is printed. -/
theorem c4_witness :
    applyArgs s0 { help := true, version := true, prompt := none } =
      (s0, [Out.tw help_text]) :=
  (c4_dispatch_precedence s0 { help := true, version := true, prompt := none }).2.1 rfl

/-- C8: end of input during the blocking read prints the farewell,
sets `running` to false so the loop ends without reading anything
further, and the process (entered with no startup flags) terminates
with exit status 0. -/
theorem c8_eof_graceful (sess : Session) (rest es : List Event)
    (hr : sess.running = true) :
    stepEvent sess Event.eof = ({ sess with running := false }, [Out.tw "\nGoodbye!"]) ∧
    runLoop sess (Event.eof :: rest) =
      ({ sess with running := false }, [Out.tw "\nGoodbye!"]) ∧
    (mainRun [] es).2 = ExitStatus.code 0 := by
  have hq : runLoop { sess with running := false } rest =
      ({ sess with running := false }, []) := by
    cases rest <;> simp [runLoop]
  refine ⟨rfl, ?_, rfl⟩
  simp [runLoop, hr, stepEvent, hq]

/-- Closed instance of `c8_eof_graceful`: events remaining after the
end of input are never read. -/
theorem c8_witness :
    stepEvent s0 Event.eof = ({ s0 with running := false }, [Out.tw "\nGoodbye!"]) ∧
    runLoop s0 (Event.eof :: [Event.line "never read"]) =
      ({ s0 with running := false }, [Out.tw "\nGoodbye!"]) ∧
    (mainRun [] [Event.eof]).2 = ExitStatus.code 0 :=
  c8_eof_graceful s0 [Event.line "never read"] [Event.eof] rfl
